import Mathlib

/-!
Shallow embedding of the `libssh` connection plugin
(`plugins/connection/libssh.py`): host-key policy, proxy-command
resolution, the per-identity session/SFTP caches, the privilege-escalation
command-execution protocol, file transfer, and `close()`.

Conventions used throughout:
* Python byte strings (`bytes`) are modelled as `List Char`; Python text
  strings (`str`) as Lean `String`.  The value type `PyV` keeps the two
  apart where the source mixes them (Python `+` raises `TypeError` on a
  `str`/`bytes` mix, which matters for the timeout handler).
* Raised exceptions are modelled as values of `PyExc`.
* Sessions and SFTP handles are identified by numeric ids (`SessionId`);
  "same instance" in the claims is equality of ids.
* Channel I/O observed by the escalation-negotiation loop is modelled as a
  list of `ChanEvent`: each loop iteration consumes one event, namely the
  outcome of the `poll`/`recv` pair.  An exhausted event list corresponds
  to a channel that would block forever; it is reported as the distinct
  outcome `ExecOutcome.blocked` (a model boundary, not an exception).
* External collaborators (the become plugin, `_split_ssh_args` from
  ansible-core, the filesystem, the SSH library calls) enter as explicit
  parameters carrying their observable behaviour.
-/

namespace Libssh

/-- Exceptions raised by the code paths modelled here: `AnsibleError`,
`AnsibleFileNotFound`, and Python's built-in `TypeError`. -/
inductive PyExc where
  | ansibleError (msg : String)
  | fileNotFound (msg : String)
  | typeError (msg : String)
deriving DecidableEq

/-- A Python value that is either a text string (`str`) or a byte string
(`bytes`). -/
inductive PyV where
  | vstr (s : String)
  | vbytes (b : List Char)
deriving DecidableEq

/-- Python `+` on `str`/`bytes`: concatenation of like types; mixing the two
raises `TypeError` (Python 3 semantics, with CPython's message). -/
def pyAdd : PyV → PyV → Except PyExc PyV
  | .vstr a, .vstr b => .ok (.vstr (a ++ b))
  | .vbytes a, .vbytes b => .ok (.vbytes (a ++ b))
  | .vstr _, .vbytes _ =>
      .error (.typeError "can only concatenate str (not \"bytes\") to str")
  | .vbytes _, .vstr _ =>
      .error (.typeError "can only concatenate bytes (not \"str\") to bytes")

/-- Python `%` formatting restricted to `%s` placeholders, which is the only
form the source uses.  Every call site in the source supplies exactly as many
arguments as there are `%s` placeholders, so the arity-mismatch behaviour of
Python (`TypeError`) is never exercised and is not modelled: leftover `%s`
with no arguments is emitted verbatim. -/
def formatS : List Char → List String → List Char
  | [], _ => []
  | '%' :: 's' :: rest, arg :: args => arg.data ++ formatS rest args
  | '%' :: 's' :: rest, [] => '%' :: 's' :: formatS rest []
  | c :: rest, args => c :: formatS rest args

/-- `fmt % (a,)` for a `%s`-only format string. -/
def pyFormat1 (fmt a : String) : String := ⟨formatS fmt.data [a]⟩

/-- `fmt % (a, b)` for a `%s`-only format string. -/
def pyFormat2 (fmt a b : String) : String := ⟨formatS fmt.data [a, b]⟩

/-- `fmt % (a, b, c, d)` for a `%s`-only format string. -/
def pyFormat4 (fmt a b c d : String) : String := ⟨formatS fmt.data [a, b, c, d]⟩

/-- Python `str.split(sep, maxsplit)` on a single-character separator,
operating on the character list. -/
def splitCharN (sep : Char) : Nat → List Char → List (List Char)
  | _, [] => [[]]
  | 0, s => [s]
  | n + 1, c :: rest =>
    if c = sep then [] :: splitCharN sep n rest
    else
      match splitCharN sep (n + 1) rest with
      | [] => [[c]]
      | h :: t => (c :: h) :: t

/-- Python `str.rsplit(sep, maxsplit)` on a single-character separator:
split from the right by splitting the reversed string from the left. -/
def pyRsplit (s : String) (sep : Char) (maxsplit : Nat) : List String :=
  ((splitCharN sep maxsplit s.data.reverse).map (fun l => String.mk l.reverse)).reverse

/-- Python `str.replace(pat, repl)`: replace every non-overlapping
occurrence, scanning left to right.  The `fuel` argument makes the
recursion structural; `pyReplace` supplies `s.length` fuel, which is enough
because every step consumes at least one character of `s`.  (The source only
ever calls this with the non-empty patterns `"%h"`, `"%p"`, `"%r"`; Python's
special behaviour for an empty pattern is not modelled.) -/
def replaceFuel (pat repl : List Char) : Nat → List Char → List Char
  | _, [] => []
  | 0, s => s
  | fuel + 1, c :: cs =>
    if !pat.isEmpty && pat.isPrefixOf (c :: cs) then
      repl ++ replaceFuel pat repl fuel (List.drop (pat.length - 1) cs)
    else
      c :: replaceFuel pat repl fuel cs

/-- Python `s.replace(pat, repl)`. -/
def pyReplace (s pat repl : String) : String :=
  ⟨replaceFuel pat.data repl.data s.data.length s.data⟩

/-- `\w` of `SETTINGS_REGEX` (ASCII approximation; every token the source
scans is ASCII). -/
def isWordChar (c : Char) : Bool := c.isAlphanum || c == '_'

/-- `\s` of `SETTINGS_REGEX` (ASCII white-space set used by Python `re`). -/
def isSpaceChar (c : Char) : Bool :=
  c == ' ' || c == '\t' || c == '\n' || c == '\r' || c == '\x0B' || c == '\x0C'

/-- `(.+)` anchored at the current position: a greedy run of at least one
non-newline character. -/
def dotPlus (s : List Char) : Option (List Char) :=
  match s with
  | [] => none
  | c :: _ => if c == '\n' then none else some (s.takeWhile (fun ch => !(ch == '\n')))

/-- `\s*(.+)` with the greedy space run backtracking until `(.+)` matches. -/
def spacesThenDot : List Char → Option (List Char)
  | [] => none
  | c :: cs =>
    if isSpaceChar c then
      match spacesThenDot cs with
      | some g => some g
      | none => dotPlus (c :: cs)
    else dotPlus (c :: cs)

/-- First alternation branch of `SETTINGS_REGEX` after the word: `\s*=\s*`
then `(.+)`.  The leading `\s*` is forced to its maximal run because the
following literal `=` is not white space. -/
def eqBranch (s : List Char) : Option (List Char) :=
  match s.dropWhile isSpaceChar with
  | '=' :: rest => spacesThenDot rest
  | _ => none

/-- Second alternation branch after the word: `\s+` then `(.+)`. -/
def spBranch : List Char → Option (List Char)
  | [] => none
  | c :: cs => if isSpaceChar c then spacesThenDot cs else none

/-- `re.match` of `SETTINGS_REGEX = (\w+)(?:\s*=\s*|\s+)(.+)` against a
token, returning `(group(1), group(2))`.  Only the maximal `\w+` run can
lead to an overall match (a shorter word prefix leaves a word character
where the separator must match), so no backtracking over group 1 is
needed. -/
def matchSettings (arg : String) : Option (String × String) :=
  let w := arg.data.takeWhile isWordChar
  let rest := arg.data.dropWhile isWordChar
  if w.isEmpty then none
  else
    match eqBranch rest with
    | some g2 => some (⟨w⟩, ⟨g2⟩)
    | none =>
      match spBranch rest with
      | some g2 => some (⟨w⟩, ⟨g2⟩)
      | none => none

/-- Python truthiness of the `proxy_command` local variable
(`None` and `""` are falsy). -/
def truthy : Option String → Bool
  | some p => !p.isEmpty
  | none => false

/-- The `IndexError` that `args[i + 1]` would raise when `proxycommand` is
the final token. -/
inductive ScanExc where
  | indexError
deriving DecidableEq

/-- Lines 341-353: the token scan of `_get_proxy_command`.  `acc` is the
current value of the `proxy_command` local (initially `None`); each
iteration may overwrite it via the standalone-token rule or the
`SETTINGS_REGEX` rule, and the loop breaks as soon as it is truthy. -/
def scanArgs (acc : Option String) : List String → Except ScanExc (Option String)
  | [] => .ok acc
  | arg :: rest =>
    let step : Except ScanExc (Option String) :=
      if arg.toLower == "proxycommand" then
        match rest with
        | next :: _ => .ok (some next)
        | [] => .error .indexError
      else
        match matchSettings arg with
        | some (g1, g2) => if g1.toLower == "proxycommand" then .ok (some g2) else .ok acc
        | none => .ok acc
    match step with
    | .error e => .error e
    | .ok acc2 => if truthy acc2 then .ok acc2 else scanArgs acc2 rest

/-- Lines 357-364: the `replacers` dict applied in insertion order
(`%h`, then `%p`, then `%r`), each entry via `str.replace` over the whole
current string. -/
def applyReplacers (proxy_command remote_addr : String) (port : Nat) (remote_user : String) : String :=
  pyReplace (pyReplace (pyReplace proxy_command "%h" remote_addr) "%p" (toString port)) "%r" remote_user

/-- Lines 327-366 (`Connection._get_proxy_command`).  `split_ssh_args`
stands for the inherited `ConnectionBase._split_ssh_args` helper, which
lives in ansible-core, outside this repository; the three legacy option
strings are already-resolved option values (`get_option(...) or ""`).
The returned string plays the role of the Python return value, with `""`
standing for the falsy no-proxy outcome (after the `or` fallback the value
is always a `str`). -/
def _get_proxy_command (split_ssh_args : String → List String)
    (ssh_extra_args ssh_common_args ssh_args proxy_command_opt : String)
    (remote_addr : String) (port : Nat) (remote_user : String) :
    Except ScanExc String :=
  let legacy := [ssh_extra_args, ssh_common_args, ssh_args]
  let scanned : Except ScanExc (Option String) :=
    if legacy.any (fun s => !s.isEmpty) then
      scanArgs none (split_ssh_args (String.intercalate " " legacy))
    else .ok none
  match scanned with
  | .error e => .error e
  | .ok pc0 =>
    let pc : String :=
      match pc0 with
      | some p => if p.isEmpty then proxy_command_opt else p
      | none => proxy_command_opt
    .ok (if pc.isEmpty then pc else applyReplacers pc remote_addr port remote_user)

/-- Modelled from the spec's words for claim C2 only (not from the source):
a single left-to-right pass in which `%h`, `%p`, `%r` are replaced as they
are encountered and replacement text is never itself rescanned, so
placeholder text introduced by a substitution survives.  Compared against
`applyReplacers` to settle the claim. -/
def substOnePassSpec (remote_addr : String) (port : Nat) (remote_user : String) :
    List Char → List Char
  | [] => []
  | '%' :: 'h' :: rest => remote_addr.data ++ substOnePassSpec remote_addr port remote_user rest
  | '%' :: 'p' :: rest => (toString port).data ++ substOnePassSpec remote_addr port remote_user rest
  | '%' :: 'r' :: rest => remote_user.data ++ substOnePassSpec remote_addr port remote_user rest
  | c :: rest => c :: substOnePassSpec remote_addr port remote_user rest

/-! ### Host-key policy (`MyAddPolicy.missing_host_key`, lines 265-296) -/

/-- The module-level `AUTHENTICITY_MSG` literal (a triple-quoted string with
leading and trailing newline). -/
def AUTHENTICITY_MSG : String :=
  "\nlibssh: The authenticity of host '%s' can't be established due to '%s'.\nThe %s key fingerprint is %s.\nAre you sure you want to continue connecting (yes/no)?\n"

/-- The already-resolved option values `missing_host_key` consults. -/
structure PolicyOpts where
  host_key_checking : Bool
  host_key_auto_add : Bool
  use_persistent_connections : Bool
  force_persistence : Bool

/-- Outcome of `missing_host_key`: either an `AnsibleError` was raised, or
control reached `session.hostkey_auto_add(username)` (key trusted for the
session; persisted to the known-hosts store at close). -/
inductive HKOutcome where
  | raised (msg : String)
  | keyAdded
deriving DecidableEq

/-- `AUTHENTICITY_MSG.rsplit("\n", 2)[0] % (hostname, message, key_type, fingerprint)`:
the message of the error raised for a persistent connection. -/
def authenticityErrMsg (hostname message key_type fingerprint : String) : String :=
  pyFormat4 ((pyRsplit AUTHENTICITY_MSG '\n' 2).headD "") hostname message key_type fingerprint

/-- Lines 265-293 (`MyAddPolicy.missing_host_key`).  `inp` is what
`display.prompt_until` would return if the interactive prompt were shown
(an external collaborator).  The `Bool` component records whether that
interactive prompt was presented. -/
def missing_host_key (opts : PolicyOpts) (inp : String)
    (hostname key_type fingerprint message : String) : Bool × HKOutcome :=
  if opts.host_key_checking && !opts.host_key_auto_add then
    if opts.use_persistent_connections || opts.force_persistence then
      -- don't print the prompt string since the user cannot respond
      (false, .raised (authenticityErrMsg hostname message key_type fingerprint))
    else
      -- display.prompt_until(AUTHENTICITY_MSG % ...); connection_unlock()
      if ["yes", "y", ""].contains inp then (true, .keyAdded)
      else (true, .raised "host connection rejected by user")
  else (false, .keyAdded)

/-! ### Connection caches (`SSH_CONNECTION_CACHE` / `SFTP_CONNECTION_CACHE`,
`Connection._cache_key`, `Connection._connect`, `Connection.close`) -/

/-- Sessions and SFTP handles are identified by numeric ids; "the same
underlying instance" is equality of ids. -/
abbrev SessionId := Nat

/-- A process-wide cache dict keyed by the identity string.  Reachable
caches never hold two entries for one key (insertion happens only after a
failed lookup), so an association list with lookup-from-the-front is an
exact model of the Python dict. -/
abbrev Cache := List (String × SessionId)

/-- Dict membership / item access combined: `cache[key]` when present. -/
def cacheLookup (c : Cache) (k : String) : Option SessionId :=
  (c.find? (fun p => p.1 == k)).map (fun p => p.2)

/-- `cache[key] = v`. -/
def cacheInsert (c : Cache) (k : String) (v : SessionId) : Cache := (k, v) :: c

/-- `cache.pop(key, None)`. -/
def cacheRemove (c : Cache) (k : String) : Cache := c.filter (fun p => !(p.1 == k))

/-- Lines 310-314 (`Connection._cache_key`): `"%s__%s__" % (remote_addr, remote_user)`. -/
def _cache_key (remote_addr remote_user : String) : String :=
  pyFormat2 "%s__%s__" remote_addr remote_user

/-- Lines 316-322 (`Connection._connect`).  `uncached` is the outcome the
`_connect_uncached()` call would have (it either returns a new session or
raises); it is evaluated only on a cache miss.  The result pairs what the
call produces for `self.ssh` (or the propagated exception) with the state
of `SSH_CONNECTION_CACHE` afterwards.  In the source, a raise inside
`_connect_uncached()` propagates before the dict assignment runs. -/
def _connect (cache : Cache) (key : String) (uncached : Except PyExc SessionId) :
    Except PyExc SessionId × Cache :=
  match cacheLookup cache key with
  | some s => (.ok s, cache)
  | none =>
    match uncached with
    | .ok s => (.ok s, cacheInsert cache key s)
    | .error e => (.error e, cache)

/-- The observable behaviour of the sub-resource close calls made by
`Connection.close` (each may raise). -/
structure CloseEnv where
  has_sftp : Bool                  -- hasattr(self, "sftp")
  sftp_is_some : Bool              -- self.sftp is not None
  sftp_close : Except PyExc Unit   -- self.sftp.close()
  has_chan : Bool                  -- hasattr(self, "chan")
  chan_is_some : Bool              -- self.chan is not None
  chan_close : Except PyExc Unit   -- self.chan.close()
  ssh_close : Except PyExc Unit    -- self.ssh.close()

/-- Lines 631-647 (`Connection.close`): both caches drop the identity
first, then the SFTP handle, the channel and the session are closed in
that order, aborting on the first raise (which propagates; the final
`self._connected = False` then does not run).  The returned caches are the
two cache states afterwards, in either case. -/
def close (sshCache sftpCache : Cache) (key : String) (env : CloseEnv) :
    (Cache × Cache) × Except PyExc Unit :=
  let sshCache2 := cacheRemove sshCache key
  let sftpCache2 := cacheRemove sftpCache key
  let res : Except PyExc Unit :=
    match (if env.has_sftp && env.sftp_is_some then env.sftp_close else .ok ()) with
    | .error e => .error e
    | .ok _ =>
      match (if env.has_chan && env.chan_is_some then env.chan_close else .ok ()) with
      | .error e => .error e
      | .ok _ => env.ssh_close
  ((sshCache2, sftpCache2), res)

/-! ### Command execution (`Connection.exec_command`, lines 448-544) -/

/-- The capability contract consumed from the privilege-escalation
collaborator (`self.become`), plus its two resolved options. -/
structure Become where
  expect_prompt : Bool
  check_success : List Char → Bool
  check_password_prompt : List Char → Bool
  become_user : String             -- get_option("become_user", ...)
  become_pass : String             -- get_option("become_pass", ...)

/-- What one `poll`/`recv` round of the negotiation loop observes:
either `poll` raises `socket.timeout`, or `recv` returns a chunk
(the empty chunk meaning the peer closed its write side). -/
inductive ChanEvent where
  | timeout
  | chunk (b : List Char)
deriving DecidableEq

/-- The structured result of a direct `chan.exec_command(...)` call. -/
structure CmdResult where
  returncode : Int
  stdout : List Char
  stderr : List Char
deriving DecidableEq

/-- The observable behaviour of the already-opened channel consumed by
`exec_command`: the negotiation-loop events, what a direct
`chan.exec_command` call would return, and `chan.get_channel_exit_status()`. -/
structure Chan where
  events : List ChanEvent
  execResult : CmdResult
  exitStatus : Int

/-- `bytes.splitlines(keepends=True)`: lines end at `\n`, `\r\n` or a lone
`\r`, with terminators kept.  `cur` holds the current line so far
(reversed); the `fuel` makes the recursion structural (the `\r\n` case
consumes two characters for one unit of fuel, so `length` fuel is always
enough and the fuel-exhausted equation is unreachable from
`splitlinesKeep`). -/
def splitlinesFuel : Nat → List Char → List Char → List (List Char)
  | _, cur, [] => if cur.isEmpty then [] else [cur.reverse]
  | 0, cur, s => [cur.reverse ++ s]
  | fuel + 1, cur, '\r' :: '\n' :: rest => (cur.reverse ++ ['\r', '\n']) :: splitlinesFuel fuel [] rest
  | fuel + 1, cur, '\n' :: rest => (cur.reverse ++ ['\n']) :: splitlinesFuel fuel [] rest
  | fuel + 1, cur, '\r' :: rest => (cur.reverse ++ ['\r']) :: splitlinesFuel fuel [] rest
  | fuel + 1, cur, c :: rest => splitlinesFuel fuel (c :: cur) rest

/-- `out.splitlines(True)` over the accumulated buffer. -/
def splitlinesKeep (out : List Char) : List (List Char) :=
  splitlinesFuel out.length [] out

/-- Lines 513-519: the per-line scan of the whole accumulated buffer.
`some true` when some line first signals success, `some false` when some
line first signals the password prompt, `none` when no line signals
either (the `for` loop falls through). -/
def scanLines (b : Become) : List (List Char) → Option Bool
  | [] => none
  | line :: rest =>
    if b.check_success line then some true
    else if b.check_password_prompt line then some false
    else scanLines b rest

/-- The line check applied to the accumulated output. -/
def scanOutput (b : Become) (out : List Char) : Option Bool :=
  scanLines b (splitlinesKeep out)

/-- The literal marker `b"unknown user"` tested against the accumulated
buffer on connection closure. -/
def unknownUserMarker : List Char := "unknown user".data

/-- Python `pat in s` on byte strings: contiguous-substring containment. -/
def pyInBytes (pat : List Char) : List Char → Bool
  | [] => pat.isEmpty
  | c :: rest => pat.isPrefixOf (c :: rest) || pyInBytes pat rest

/-- How the `while not (become_sucess or passprompt)` loop (lines 492-519)
ends, carrying the accumulated `become_output` at that point. -/
inductive LoopExit where
  | success (out : List Char)    -- become_sucess set; loop condition ends it
  | prompt (out : List Char)     -- passprompt set; loop condition ends it
  | closed (out : List Char)     -- empty chunk without the marker: break
  | userErr (out : List Char)    -- empty chunk with b"unknown user" in the buffer
  | timedOut (out : List Char)   -- poll raised socket.timeout
  | exhausted (out : List Char)  -- model boundary: no further events (channel would block)
deriving DecidableEq

/-- Lines 492-519: the negotiation loop.  `become_output` is the buffer
accumulated so far; each iteration consumes one channel event.  The empty
chunk is tested against the buffer accumulated in earlier iterations
(`become_output += chunk` runs after the emptiness check). -/
def becomeLoop (b : Become) (become_output : List Char) : List ChanEvent → LoopExit
  | [] => .exhausted become_output
  | .timeout :: _ => .timedOut become_output
  | .chunk chunk :: rest =>
    if chunk.isEmpty then
      if pyInBytes unknownUserMarker become_output then .userErr become_output
      else .closed become_output
    else
      let out2 := become_output ++ chunk
      match scanOutput b out2 with
      | some true => .success out2
      | some false => .prompt out2
      | none => becomeLoop b out2 rest

/-- The observable outcome of `exec_command`: the returned
`(rc, out, err)` triple, a raised exception, or the model boundary for a
negotiation loop that would block forever. -/
inductive ExecOutcome where
  | ok (rc : Int) (stdout stderr : List Char)
  | exc (e : PyExc)
  | blocked (out : List Char)
deriving DecidableEq

/-- Lines 479-544 of `Connection.exec_command`, from `result = None` to the
`return rc, out, err`, for an already-opened channel (the `in_data` guard
and the channel-open/pty steps of lines 453-477 sit upstream of everything
modelled here and raise before this code runs when they fail).  Locals
mirror the source: `result` starts as `None` and is only set on the direct
path; `no_prompt_out`/`no_prompt_err` accumulate the negotiation output
after a promptless loop end but are never read again; `out`/`err` start
empty and are only set from `result`.  Channel writes (`sendall` of the
command and of the password) have no observable effect on the returned
triple and are noted in comments.  The `except socket.timeout` handler
builds its message with Python `+` on a `str` literal and the `bytes`
buffer, via `pyAdd`. -/
def execCommandCore (become : Option Become) (chan : Chan) : ExecOutcome :=
  -- result = None; no_prompt_out = b""; no_prompt_err = b""; out = b""; err = b""
  match become with
  | some b =>
    if b.expect_prompt then
      -- self.chan.sendall(cmd)
      match becomeLoop b [] chan.events with
      | .userErr _ =>
        .exc (.ansibleError (pyFormat1 "user %s does not exist" b.become_user))
      | .timedOut become_output =>
        match pyAdd (.vstr "ssh timed out waiting for privilege escalation.\n")
            (.vbytes become_output) with
        | .ok (.vstr m) => .exc (.ansibleError m)
        | .ok (.vbytes bs) => .exc (.ansibleError ⟨bs⟩)
        | .error e => .exc e
      | .exhausted out => .blocked out
      | .prompt _ =>
        -- if self.become: re-examines the same attribute
        match become with
        | some _ =>
          -- self.chan.sendall(to_bytes(become_pass) + b"\n")
          -- result is still None, so rc comes from the channel exit status
          .ok chan.exitStatus [] []
        | none => .exc (.ansibleError "A password is required but none was supplied")
      | .success become_output =>
        -- no_prompt_out += become_output; no_prompt_err += become_output (never returned)
        let _no_prompt_out := become_output
        let _no_prompt_err := become_output
        .ok chan.exitStatus [] []
      | .closed become_output =>
        let _no_prompt_out := become_output
        let _no_prompt_err := become_output
        .ok chan.exitStatus [] []
    else
      .ok chan.execResult.returncode chan.execResult.stdout chan.execResult.stderr
  | none =>
    .ok chan.execResult.returncode chan.execResult.stdout chan.execResult.stderr

/-! ### File transfer (`Connection.put_file`, lines 546-579) -/

/-- Network/protocol operations `put_file` can perform, in order. -/
inductive NetOp where
  | sftpOpen | sftpPut | scpOpen | scpPut
deriving DecidableEq

/-- The collaborators `put_file` consults: the filesystem check and the
outcomes of the SSH-library calls. -/
structure PutEnv where
  path_exists : Bool               -- os.path.exists(to_bytes(in_path))
  sftp_open : Except String Unit   -- self.ssh.sftp(); error carries str(e)
  sftp_put_ok : Bool               -- false when self.sftp.put raises IOError
  scp_put : Except String Unit     -- scp.put; error carries to_text(exc) of LibsshSCPException

/-- Lines 546-579 (`Connection.put_file`): the precondition check on the
local path runs before either protocol branch; the result pairs the list
of network operations attempted with the outcome. -/
def put_file (env : PutEnv) (in_path out_path proto : String) :
    List NetOp × Except PyExc Unit :=
  if !env.path_exists then
    ([], .error (.fileNotFound (pyFormat1 "file or module does not exist: %s" in_path)))
  else if proto == "sftp" then
    match env.sftp_open with
    | .error e =>
      ([.sftpOpen], .error (.ansibleError (pyFormat1 "failed to open a SFTP connection (%s)" e)))
    | .ok _ =>
      if env.sftp_put_ok then ([.sftpOpen, .sftpPut], .ok ())
      else ([.sftpOpen, .sftpPut],
        .error (.ansibleError (pyFormat1 "failed to transfer file to %s" out_path)))
  else if proto == "scp" then
    match env.scp_put with
    | .ok _ => ([.scpOpen, .scpPut], .ok ())
    | .error e =>
      ([.scpOpen, .scpPut],
        .error (.ansibleError (pyFormat2 "Error transferring file to %s: %s" out_path e)))
  else
    ([], .error (.ansibleError (pyFormat1 "Don't know how to transfer file over protocol %s" proto)))

/-! ### Concrete instances used by counterexamples and witnesses -/

/-- A become collaborator that expects a prompt but whose line checks never
match (no success pattern, no password-prompt pattern in the output). -/
def becomeNoMatch : Become :=
  ⟨true, fun _ => false, fun _ => false, "root", "pw"⟩

/-- A channel that yields one line of non-matching output and then closes
its write side. -/
def chanClosedAfterFoo : Chan :=
  ⟨[.chunk "foo\n".data, .chunk []], ⟨0, [], []⟩, 0⟩

/-- A channel whose first poll raises `socket.timeout`. -/
def chanTimesOut : Chan :=
  ⟨[.timeout], ⟨0, [], []⟩, 0⟩

/-- A become collaborator for the unknown-user scenario. -/
def becomeAdmin : Become :=
  ⟨true, fun _ => false, fun _ => false, "admin", "pw"⟩

/-- A channel that reports `unknown user` output and then closes. -/
def chanUnknownUser : Chan :=
  ⟨[.chunk "sudo: unknown user: admin\n".data, .chunk []], ⟨0, [], []⟩, 0⟩

/-! ### Helper lemmas -/

/-- The persistent-rejection message decomposed around its four inserted
arguments (`a` = hostname, `b` = message, `c` = key type, `d` = fingerprint). -/
theorem authenticityErrMsg_data (a b c d : String) :
    (authenticityErrMsg a b c d).data =
      ("\nlibssh: The authenticity of host '").data ++ (a.data ++
        (("' can't be established due to '").data ++ (b.data ++
          (("'.\nThe ").data ++ (c.data ++
            ((" key fingerprint is ").data ++ (d.data ++ (".").data))))))) := rfl

/-- Removing a key from a cache makes lookups of that key fail. -/
theorem cacheLookup_cacheRemove (c : Cache) (k : String) :
    cacheLookup (cacheRemove c k) k = none := by
  induction c with
  | nil => rfl
  | cons p t ih =>
    by_cases hp : p.1 == k
    · simpa [cacheRemove, List.filter_cons, hp] using ih
    · simp only [cacheRemove, List.filter_cons, hp] at ih ⊢
      simp only [Bool.not_false, if_pos]
      unfold cacheLookup at ih ⊢
      rw [List.find?_cons_of_neg _ (by simp [hp])]
      exact ih

/-- The unknown-user error message never coincides with the
password-required message (their first characters differ). -/
theorem userMsg_ne_password_msg (u : String) :
    pyFormat1 "user %s does not exist" u ≠ "A password is required but none was supplied" := by
  intro h
  have hd := congrArg String.data h
  have hL : (pyFormat1 "user %s does not exist" u).data =
      'u' :: ('s' :: ('e' :: ('r' :: (' ' :: (u.data ++ (" does not exist").data))))) := rfl
  rw [hL, show ("A password is required but none was supplied").data =
    'A' :: (" password is required but none was supplied").data from rfl] at hd
  injection hd with h1 _
  exact absurd h1 (by decide)

/-! ### Claim theorems -/

/-- C1 counterexample: a command under escalation whose output `foo\n`
matches neither check, followed by an empty chunk without the
`unknown user` marker.  The loop ends on the `closed` break with
accumulated output `foo\n`, no error is raised, but the returned stdout
and stderr are both empty rather than equal to the accumulated output. -/
theorem exec_closed_path_empty_output_cex :
    becomeLoop becomeNoMatch [] chanClosedAfterFoo.events = .closed "foo\n".data ∧
    execCommandCore (some becomeNoMatch) chanClosedAfterFoo = .ok 0 [] [] ∧
    "foo\n".data ≠ ([] : List Char) :=
  ⟨rfl, rfl, by decide⟩

/-- C1 (amended): when the escalation-negotiation loop stops on an empty
chunk whose accumulated buffer lacks the `unknown user` marker, the loop
terminates and no error is raised, the return code is read from the
channel exit status, and the returned stdout and stderr are both empty —
the accumulated negotiation output goes into the `no_prompt_out` /
`no_prompt_err` locals, which are never returned. -/
theorem exec_closed_path_returns_empty (b : Become) (chan : Chan) (out : List Char)
    (hexp : b.expect_prompt = true)
    (hclosed : becomeLoop b [] chan.events = .closed out) :
    execCommandCore (some b) chan = .ok chan.exitStatus [] [] := by
  simp [execCommandCore, hexp, hclosed]

/-- C1 witness: the amended theorem applied to the concrete closed-channel
run. -/
theorem exec_closed_path_returns_empty_witness :
    execCommandCore (some becomeNoMatch) chanClosedAfterFoo = .ok 0 [] [] :=
  exec_closed_path_returns_empty becomeNoMatch chanClosedAfterFoo "foo\n".data rfl rfl

/-- C2 counterexample: with template `echo %h`, host `a%pb`, port 22, the
code produces `echo a22b` — the literal `%p` introduced into the string by
the `%h` substitution is substituted again by the later `%p` rule — while
the claimed no-resubstitution semantics (`substOnePassSpec`, modelled from
the spec's words) yields `echo a%pb`. -/
theorem proxy_resubstitution_cex :
    _get_proxy_command (fun _ => []) "" "" "" "echo %h" "a%pb" 22 "u" = .ok "echo a22b" ∧
    String.mk (substOnePassSpec "a%pb" 22 "u" ("echo %h").data) = "echo a%pb" ∧
    ("echo a22b" : String) ≠ "echo a%pb" :=
  ⟨rfl, rfl, by decide⟩

/-- C2 (amended): for every resolved non-empty proxy command template, the
result equals the template with `%h` replaced everywhere by the host, then
`%p` by the port, then `%r` by the user — three sequential whole-string
`str.replace` passes, so text introduced by an earlier substitution is
subject to the later rules. -/
theorem proxy_substitution_sequential (split_ssh_args : String → List String)
    (pcopt addr user : String) (port : Nat)
    (hne : pcopt ≠ "") :
    _get_proxy_command split_ssh_args "" "" "" pcopt addr port user =
      .ok (pyReplace (pyReplace (pyReplace pcopt "%h" addr) "%p" (toString port)) "%r" user) := by
  have hne2 : pcopt.isEmpty = false := by
    cases hb : pcopt.isEmpty with
    | false => rfl
    | true => exact absurd ((String.isEmpty_iff pcopt).mp hb) hne
  have h0 : _get_proxy_command split_ssh_args "" "" "" pcopt addr port user =
      .ok (if pcopt.isEmpty then pcopt else applyReplacers pcopt addr port user) := rfl
  rw [h0, hne2]
  rfl

/-- C2 witness: the spec's own vector `proxy_command = "connect -S proxy %h %p"`,
host `example.com`, port 2222, user `bob`. -/
theorem proxy_substitution_sequential_witness :
    _get_proxy_command (fun _ => []) "" "" "" "connect -S proxy %h %p" "example.com" 2222 "bob" =
      .ok "connect -S proxy example.com 2222" := by
  have h := proxy_substitution_sequential (fun _ => []) "connect -S proxy %h %p"
    "example.com" "bob" 2222 (by decide)
  rw [h]
  rfl

/-- C3: if `connect()` fails — the uncached connection attempt raises —
then the identity is absent from the session cache afterwards; a failed
connect never stores a partially-built session under its cache key. -/
theorem failed_connect_leaves_identity_uncached (cache : Cache) (key : String)
    (uncached : Except PyExc SessionId) (e : PyExc)
    (hfail : (_connect cache key uncached).1 = .error e) :
    cacheLookup (_connect cache key uncached).2 key = none := by
  unfold _connect at hfail ⊢
  cases hl : cacheLookup cache key with
  | some s => rw [hl] at hfail; simp at hfail
  | none =>
    rw [hl] at hfail
    cases uncached with
    | ok s => simp at hfail
    | error e2 => exact hl

/-- C3 witness: a failing uncached connect against an empty cache leaves
the identity unregistered. -/
theorem failed_connect_leaves_identity_uncached_witness :
    cacheLookup (_connect [] (_cache_key "host" "user")
      (.error (.ansibleError "ssh connection failed: boom"))).2 (_cache_key "host" "user") = none :=
  failed_connect_leaves_identity_uncached [] (_cache_key "host" "user")
    (.error (.ansibleError "ssh connection failed: boom")) (.ansibleError "ssh connection failed: boom") rfl

/-- C4: if a `connect()` call for an identity succeeds with session `s` and
cache state `cache2`, a second `connect()` with no intervening
`close()`/`reset()` returns the same session `s` from the cache — whatever
a fresh uncached attempt `u2` would do, it is not consulted — and leaves
the cache unchanged. -/
theorem connect_twice_returns_same_session (cache : Cache) (addr user : String)
    (u1 u2 : Except PyExc SessionId) (s : SessionId) (cache2 : Cache)
    (h : _connect cache (_cache_key addr user) u1 = (.ok s, cache2)) :
    _connect cache2 (_cache_key addr user) u2 = (.ok s, cache2) := by
  generalize hk : _cache_key addr user = key at h ⊢
  unfold _connect at h ⊢
  cases hl : cacheLookup cache key with
  | some s0 =>
    rw [hl] at h
    have h2 : cache = cache2 := congrArg Prod.snd h
    have h1 : (Except.ok s0 : Except PyExc SessionId) = .ok s := congrArg Prod.fst h
    injection h1 with h1
    subst h2
    rw [hl, h1]
  | none =>
    rw [hl] at h
    cases u1 with
    | error e =>
      have h1 : (Except.error e : Except PyExc SessionId) = .ok s := congrArg Prod.fst h
      exact absurd h1 (by simp)
    | ok s1 =>
      have h1 : (Except.ok s1 : Except PyExc SessionId) = .ok s := congrArg Prod.fst h
      injection h1 with h1
      have h2 : cacheInsert cache key s1 = cache2 := congrArg Prod.snd h
      rw [h1] at h2
      subst h2
      have hl2 : cacheLookup (cacheInsert cache key s) key = some s := by
        simp [cacheLookup, cacheInsert, List.find?]
      rw [hl2]

/-- C4 witness: after a first connect stores session 7, a second connect
returns 7 from the cache even though a fresh attempt would fail. -/
theorem connect_twice_returns_same_session_witness :
    _connect [(_cache_key "host" "user", 7)] (_cache_key "host" "user")
        (.error (.ansibleError "unreachable")) =
      (.ok 7, [(_cache_key "host" "user", 7)]) :=
  connect_twice_returns_same_session [] "host" "user" (.ok 7)
    (.error (.ansibleError "unreachable")) 7 [(_cache_key "host" "user", 7)] rfl

/-- C5: the claim says a socket-level timeout during prompt negotiation is
surfaced as a timeout error carrying the captured output, and that nothing
else escapes the handler.  Evaluating the code at the failing input (a
first poll that raises `socket.timeout`) shows the handler itself fails:
`"ssh timed out waiting for privilege escalation.\n" + become_output`
adds a `str` to a `bytes` value, so a `TypeError` escapes instead of the
intended `AnsibleError`, and its message contains no captured output. -/
theorem timeout_handler_raises_type_error :
    execCommandCore (some becomeNoMatch) chanTimesOut =
      .exc (.typeError "can only concatenate str (not \"bytes\") to str") := rfl

/-- C6: with `host_key_checking` on, `host_key_auto_add` off, and a
persistent connection (configured or forced), `missing_host_key` raises an
error whose message contains the hostname, the key type and the
fingerprint, and presents no interactive prompt (the `Bool` component is
`false`). -/
theorem persistent_connection_rejects_host_key (opts : PolicyOpts)
    (inp hostname key_type fingerprint message : String)
    (hchk : opts.host_key_checking = true)
    (hauto : opts.host_key_auto_add = false)
    (hpers : (opts.use_persistent_connections || opts.force_persistence) = true) :
    missing_host_key opts inp hostname key_type fingerprint message =
      (false, .raised (authenticityErrMsg hostname message key_type fingerprint)) ∧
    hostname.data <:+: (authenticityErrMsg hostname message key_type fingerprint).data ∧
    key_type.data <:+: (authenticityErrMsg hostname message key_type fingerprint).data ∧
    fingerprint.data <:+: (authenticityErrMsg hostname message key_type fingerprint).data := by
  refine ⟨by simp [missing_host_key, hchk, hauto, hpers], ?_, ?_, ?_⟩
  · exact ⟨("\nlibssh: The authenticity of host '").data,
      ("' can't be established due to '").data ++ (message.data ++
        (("'.\nThe ").data ++ (key_type.data ++
          ((" key fingerprint is ").data ++ (fingerprint.data ++ (".").data))))),
      by rw [authenticityErrMsg_data]; simp [List.append_assoc]⟩
  · exact ⟨("\nlibssh: The authenticity of host '").data ++ (hostname.data ++
      (("' can't be established due to '").data ++ (message.data ++ ("'.\nThe ").data))),
      (" key fingerprint is ").data ++ (fingerprint.data ++ (".").data),
      by rw [authenticityErrMsg_data]; simp [List.append_assoc]⟩
  · exact ⟨("\nlibssh: The authenticity of host '").data ++ (hostname.data ++
      (("' can't be established due to '").data ++ (message.data ++
        (("'.\nThe ").data ++ (key_type.data ++ (" key fingerprint is ").data))))),
      (".").data,
      by rw [authenticityErrMsg_data]; simp [List.append_assoc]⟩

/-- C6 witness: the theorem at a concrete persistent-connection decision. -/
theorem persistent_connection_rejects_host_key_witness :
    missing_host_key ⟨true, false, true, false⟩ "no" "host1" "ssh-rsa" "ab:cd:ef" "msg" =
      (false, .raised (authenticityErrMsg "host1" "msg" "ssh-rsa" "ab:cd:ef")) ∧
    ("host1").data <:+: (authenticityErrMsg "host1" "msg" "ssh-rsa" "ab:cd:ef").data ∧
    ("ssh-rsa").data <:+: (authenticityErrMsg "host1" "msg" "ssh-rsa" "ab:cd:ef").data ∧
    ("ab:cd:ef").data <:+: (authenticityErrMsg "host1" "msg" "ssh-rsa" "ab:cd:ef").data :=
  persistent_connection_rejects_host_key ⟨true, false, true, false⟩
    "no" "host1" "ssh-rsa" "ab:cd:ef" "msg" rfl rfl rfl

/-- C7: if the channel closes (empty chunk) while the buffer accumulated in
the loop so far contains the literal `unknown user`, the loop ends in the
user-error state and `exec_command` raises the escalation error naming the
configured escalation user.  `hreach` states that the loop, started from
the empty buffer, reaches the closing event with accumulated buffer `buf`. -/
theorem unknown_user_marker_fails_with_user_error (b : Become) (chan : Chan)
    (buf : List Char) (rest : List ChanEvent)
    (hexp : b.expect_prompt = true)
    (hmark : pyInBytes unknownUserMarker buf = true)
    (hreach : becomeLoop b [] chan.events = becomeLoop b buf (ChanEvent.chunk [] :: rest)) :
    becomeLoop b buf (ChanEvent.chunk [] :: rest) = .userErr buf ∧
    execCommandCore (some b) chan =
      .exc (.ansibleError (pyFormat1 "user %s does not exist" b.become_user)) := by
  have h1 : becomeLoop b buf (ChanEvent.chunk [] :: rest) = .userErr buf := by
    simp [becomeLoop, hmark]
  refine ⟨h1, ?_⟩
  rw [h1] at hreach
  simp [execCommandCore, hexp, hreach]

/-- C7 witness: `sudo: unknown user: admin` output followed by closure
produces the `user admin does not exist` error. -/
theorem unknown_user_marker_fails_with_user_error_witness :
    becomeLoop becomeAdmin ("sudo: unknown user: admin\n".data) [ChanEvent.chunk []] =
      .userErr ("sudo: unknown user: admin\n".data) ∧
    execCommandCore (some becomeAdmin) chanUnknownUser =
      .exc (.ansibleError (pyFormat1 "user %s does not exist" "admin")) :=
  unknown_user_marker_fails_with_user_error becomeAdmin chanUnknownUser
    ("sudo: unknown user: admin\n".data) [] rfl rfl rfl

/-- C8: `put_file` with a missing local path fails with the file-not-found
error naming the path, with no network or protocol operation attempted,
whatever the protocol value. -/
theorem put_file_missing_local_path_fails_first (env : PutEnv) (in_path out_path proto : String)
    (hmiss : env.path_exists = false) :
    put_file env in_path out_path proto =
      ([], .error (.fileNotFound (pyFormat1 "file or module does not exist: %s" in_path))) ∧
    in_path.data <:+: (pyFormat1 "file or module does not exist: %s" in_path).data := by
  constructor
  · simp [put_file, hmiss]
  · exact ⟨("file or module does not exist: ").data, [], by
      rw [show (pyFormat1 "file or module does not exist: %s" in_path).data =
        ("file or module does not exist: ").data ++ (in_path.data ++ []) from rfl]
      simp [List.append_assoc]⟩

/-- C8 witness: a nonexistent local path under the `scp` protocol. -/
theorem put_file_missing_local_path_fails_first_witness :
    put_file ⟨false, .ok (), true, .ok ()⟩ "missing.txt" "remote.txt" "scp" =
      ([], .error (.fileNotFound (pyFormat1 "file or module does not exist: %s" "missing.txt"))) ∧
    ("missing.txt").data <:+: (pyFormat1 "file or module does not exist: %s" "missing.txt").data :=
  put_file_missing_local_path_fails_first ⟨false, .ok (), true, .ok ()⟩
    "missing.txt" "remote.txt" "scp" rfl

/-- C9: `close()` pops the identity from both process-wide caches before
any sub-resource close call runs, so the identity is absent from both
caches afterwards for every combination of sub-resource behaviours —
in particular even when closing the SFTP handle, the channel or the
session raises. -/
theorem close_removes_identity_from_both_caches (sshCache sftpCache : Cache)
    (key : String) (env : CloseEnv) :
    cacheLookup (close sshCache sftpCache key env).1.1 key = none ∧
    cacheLookup (close sshCache sftpCache key env).1.2 key = none :=
  ⟨cacheLookup_cacheRemove sshCache key, cacheLookup_cacheRemove sftpCache key⟩

/-- C10: the `"A password is required but none was supplied"` branch of
`exec_command` is unreachable: the password-prompt branch only runs inside
the `if self.become and self.become.expect_prompt()` block, where the
re-examined `self.become` is necessarily set, so no execution of
`execCommandCore` ever produces that error. -/
theorem password_required_error_unreachable (become : Option Become) (chan : Chan) :
    execCommandCore become chan ≠
      .exc (.ansibleError "A password is required but none was supplied") := by
  intro h
  cases become with
  | none => simp [execCommandCore] at h
  | some b =>
    cases hexp : b.expect_prompt with
    | false => simp [execCommandCore, hexp] at h
    | true =>
      cases hloop : becomeLoop b [] chan.events with
      | userErr out =>
        simp [execCommandCore, hexp, hloop] at h
        exact userMsg_ne_password_msg b.become_user h
      | timedOut out => simp [execCommandCore, hexp, hloop, pyAdd] at h
      | exhausted out => simp [execCommandCore, hexp, hloop] at h
      | prompt out => simp [execCommandCore, hexp, hloop] at h
      | success out => simp [execCommandCore, hexp, hloop] at h
      | closed out => simp [execCommandCore, hexp, hloop] at h

end Libssh
